import Mathlib

/-!
Verification development for the job tracking core of printers-js
(src/lib/core.rs). The Rust core is shallowly embedded: machine integers
become Nat, SystemTime instants become points on a single Nat time axis,
HashMap becomes an association list, the global mutable state (JOB_TRACKER,
NEXT_JOB_ID, SHUTDOWN_FLAG, the worker threads) becomes an explicit SysState
threaded through the operations, and the external collaborators (the
printers crate, the filesystem, the environment, the random UUID source)
become explicit parameters.
-/

set_option maxHeartbeats 1000000

/-- Error codes of the printing operations (src/lib/core.rs, enum PrintError). -/
inductive PrintError
  | InvalidParams
  | InvalidPrinterName
  | InvalidFilePath
  | InvalidJson
  | InvalidJsonEncoding
  | PrinterNotFound
  | FileNotFound
  | SimulatedFailure
deriving DecidableEq, Repr

/-- Job lifecycle states (src/lib/core.rs, enum PrinterJobState). -/
inductive PrinterJobState
  | PENDING
  | PAUSED
  | PROCESSING
  | CANCELLED
  | COMPLETED
  | UNKNOWN
deriving DecidableEq, Repr

/-- Tracked record of one print job (src/lib/core.rs, struct PrinterJob).
SystemTime timestamps are modelled as natural numbers on one time axis. -/
structure PrinterJob where
  id : Nat
  name : String
  state : PrinterJobState
  media_type : String
  created_at : Nat
  processed_at : Option Nat
  completed_at : Option Nat
  printer_name : String
  error_message : Option String
deriving DecidableEq, Repr

/-- Caller supplied job options (src/lib/core.rs, struct PrinterJobOptions).
The raw properties HashMap is modelled as an association list. -/
structure PrinterJobOptions where
  name : Option String
  raw_properties : List (String × String)
deriving DecidableEq, Repr

/-- Empty job options (PrinterJobOptions::none in the source). -/
def PrinterJobOptions.noOpts : PrinterJobOptions :=
  { name := Option.none, raw_properties := [] }

/-- Build options from a raw map, extracting the reserved job-name key into
the display name (PrinterJobOptions::from_map). -/
def PrinterJobOptions.from_map (m : List (String × String)) : PrinterJobOptions :=
  { name := (m.find? (fun kv => kv.1 == "job-name")).map Prod.snd,
    raw_properties := m.filter (fun kv => kv.1 != "job-name") }

/-- Environment toggle check (src/lib/core.rs, should_simulate_printing).
The value of the PRINTERS_JS_SIMULATE variable is passed as an Option. -/
def should_simulate_printing (v : Option String) : Bool :=
  match v with
  | some val => val == "true" || val == "1"
  | Option.none => false

/-- Value the NEXT_JOB_ID counter is seeded with (src/lib/core.rs, lazy static). -/
def NEXT_JOB_ID_seed : Nat := 1000

/-- Size of the u64 id space: the JobId type of the source is u64. -/
def U64_SIZE : Nat := 2 ^ 64

/-- One call of the allocator (src/lib/core.rs, generate_job_id): it returns
the current counter value and leaves the counter incremented. The counter is
a u64, so the increment wraps at 2 ^ 64 — the release-build semantics of
+= 1 on u64; a debug build would abort at the same call instead. -/
def generate_job_id (next_id : Nat) : Nat × Nat := (next_id, (next_id + 1) % U64_SIZE)

/-- Counter value after n allocator calls starting from the seed. -/
def counterAfter : Nat → Nat
  | 0 => NEXT_JOB_ID_seed
  | n + 1 => (generate_job_id (counterAfter n)).2

/-- Identifier returned by the n-th allocator call, counting from 0. -/
def issuedId (n : Nat) : Nat := (generate_job_id (counterAfter n)).1

/-- Boolean list form of the string starts-with test. -/
def listIsPrefixOf : List Char → List Char → Bool
  | [], _ => true
  | _ :: _, [] => false
  | a :: as, b :: bs => a == b && listIsPrefixOf as bs

/-- Boolean contiguous sublist test, modelling str::contains. -/
def listContainsSub : List Char → List Char → Bool
  | [], needle => needle.isEmpty
  | a :: t, needle => listIsPrefixOf needle (a :: t) || listContainsSub t needle

/-- Model of str::starts_with. -/
def strStartsWith (hay pat : String) : Bool := listIsPrefixOf pat.data hay.data

/-- Model of str::contains for a literal pattern. -/
def strContains (hay needle : String) : Bool := listContainsSub hay.data needle.data

/-- Characters after the last occurrence of sep; none when sep is absent. -/
def takeAfterLast (sep : Char) : List Char → Option (List Char)
  | [] => Option.none
  | a :: t =>
    match takeAfterLast sep t with
    | some r => some r
    | Option.none => if a = sep then some t else Option.none

/-- Final path component, modelling Path::file_name on slash separated paths. -/
def lastComponent (l : List Char) : List Char := (takeAfterLast '/' l).getD l

/-- Extension of the final path component, modelling Path::extension: none
when there is no dot, or when the only dot is the leading dot of a hidden
file. -/
def pathExtension (p : String) : Option (List Char) :=
  let f := lastComponent p.data
  match takeAfterLast '.' f with
  | Option.none => Option.none
  | some ext =>
    if f.headD ' ' = '.' ∧ f.length = ext.length + 1 then Option.none else some ext

/-- Lowercased extension string. -/
def extLower (ext : List Char) : String := String.mk (ext.map Char.toLower)

/-- Media type table for known extensions (src/lib/core.rs, detect_media_type). -/
def extMediaType (ext : List Char) : String :=
  let e := extLower ext
  if e = "pdf" then "application/pdf"
  else if e = "ps" then "application/postscript"
  else if e = "txt" ∨ e = "text" then "text/plain"
  else if e = "jpg" ∨ e = "jpeg" then "image/jpeg"
  else if e = "png" then "image/png"
  else if e = "gif" then "image/gif"
  else "application/octet-stream"

/-- Media type detection (src/lib/core.rs, detect_media_type). -/
def detect_media_type (file_path : String) : String :=
  if strStartsWith file_path "<bytes:" then "application/vnd.cups-raw"
  else
    match pathExtension file_path with
    | some ext => extMediaType ext
    | Option.none => "application/octet-stream"

/-- Printer readiness states of the upstream printers crate. -/
inductive PrinterState
  | READY
  | PRINTING
  | PAUSED
  | UNKNOWN
deriving DecidableEq, Repr

/-- Printer descriptor of the upstream printers crate. -/
structure Printer where
  name : String
  system_name : String
  driver_name : String
  uri : String
  location : String
  description : String
  port_name : String
  processor : String
  data_type : String
  is_shared : Bool
  is_default : Bool
  state : PrinterState
  state_reasons : List String
deriving DecidableEq, Repr

/-- External collaborators and configuration threaded through the model: the
simulation toggle, the list returned by printers::get_printers, the lookup
printers::get_printer_by_name, and the filesystem existence check. -/
structure Env where
  simulate : Bool
  realPrinters : List Printer
  realLookup : String → Option Printer
  fileExists : String → Bool

/-- Mock printer built when simulation mode finds no real printer to use as
a template (src/lib/core.rs, find_printer_by_name). -/
def mockPrinter (nm : String) : Printer :=
  { name := nm,
    system_name := "Brother_MFC_J6955DW",
    driver_name := "Brother MFC-J6955DW-AirPrint",
    uri := "mock://printer",
    location := "Test Location",
    description := "Mock printer for testing",
    port_name := "MOCK:",
    processor := "Mock Processor",
    data_type := "RAW",
    is_shared := false,
    is_default := true,
    state := PrinterState.READY,
    state_reasons := [] }

/-- Printer resolution (src/lib/core.rs, PrinterCore::find_printer_by_name). -/
def find_printer_by_name (env : Env) (nm : String) : Option Printer :=
  if env.simulate then
    if nm = "Simulated Printer" then
      match env.realPrinters.head? with
      | some p => some { p with name := nm, is_default := true }
      | Option.none => some (mockPrinter nm)
    else Option.none
  else env.realLookup nm

/-- The JOB_TRACKER map, modelled as an association list. -/
abbrev Registry := List (Nat × PrinterJob)

/-- Model of HashMap::insert: the new binding replaces any existing binding
for the key. -/
def insertJob (k : Nat) (v : PrinterJob) (reg : Registry) : Registry :=
  (k, v) :: reg.filter (fun p => p.1 != k)

/-- Model of HashMap::get followed by clone. -/
def lookupJob (k : Nat) (reg : Registry) : Option PrinterJob :=
  (reg.find? (fun p => p.1 == k)).map Prod.snd

/-- Model of the get_mut update pattern: a no-op when the key is absent. -/
def updateJob (k : Nat) (f : PrinterJob → PrinterJob) (reg : Registry) : Registry :=
  reg.map (fun p => if p.1 = k then (p.1, f p.2) else p)

/-- Worker transition to PROCESSING (handle_print_job_simple, first block). -/
def mark_processing (id now : Nat) (reg : Registry) : Registry :=
  updateJob id
    (fun j => { j with state := PrinterJobState.PROCESSING, processed_at := some now }) reg

/-- Worker transition to COMPLETED (handle_print_job_simple, success arm). -/
def mark_completed (id now : Nat) (reg : Registry) : Registry :=
  updateJob id
    (fun j => { j with state := PrinterJobState.COMPLETED, completed_at := some now }) reg

/-- Worker transition to CANCELLED with an error message
(handle_print_job_simple, failure arm). -/
def mark_cancelled (id now : Nat) (msg : String) (reg : Registry) : Registry :=
  updateJob id
    (fun j => { j with state := PrinterJobState.CANCELLED,
                       error_message := some msg, completed_at := some now }) reg

/-- Retention predicate (PrinterCore::cleanup_old_jobs): a record is kept
when its age is strictly below max_age or its state is not terminal. -/
def shouldKeepJob (now max_age : Nat) (j : PrinterJob) : Bool :=
  decide (now - j.created_at < max_age)
    || (decide (j.state ≠ PrinterJobState.COMPLETED)
        && decide (j.state ≠ PrinterJobState.CANCELLED))

/-- Terminal state test. -/
def isTerminal (st : PrinterJobState) : Bool :=
  match st with
  | PrinterJobState.COMPLETED => true
  | PrinterJobState.CANCELLED => true
  | _ => false

/-- Retention sweep (PrinterCore::cleanup_old_jobs): the retained registry
together with the count of removed records. -/
def cleanup_old_jobs (now max_age : Nat) (reg : Registry) : Registry × Nat :=
  (reg.filter (fun p => shouldKeepJob now max_age p.2),
   (reg.filter (fun p => !shouldKeepJob now max_age p.2)).length)

/-- Worker thread progress, used to model the per-job execution protocol of
handle_print_job_simple and handle_print_bytes_job: each worker first marks
its record PROCESSING, then either writes a terminal state or exits on the
shutdown signal without writing one. -/
inductive WorkerPhase
  | notSpawned
  | spawned
  | marked
  | done
deriving DecidableEq, Repr

/-- Process wide state: the JOB_TRACKER map, the NEXT_JOB_ID counter, the
phase of each spawned worker thread, and the SHUTDOWN_FLAG. -/
structure SysState where
  reg : Registry
  nextId : Nat
  phase : Nat → WorkerPhase
  shutdownFlag : Bool

/-- State at process start. -/
def initState : SysState :=
  { reg := [], nextId := NEXT_JOB_ID_seed,
    phase := fun _ => WorkerPhase.notSpawned, shutdownFlag := false }

/-- Pending record created by print_file on the success path. The uuid
argument is the value drawn from Uuid::new_v4 at this submission. -/
def newFileJob (uuid : String) (now : Nat) (printer_name file_path : String)
    (opts : Option PrinterJobOptions) (id : Nat) : PrinterJob :=
  { id := id,
    name := (opts.getD PrinterJobOptions.noOpts).name.getD uuid,
    state := PrinterJobState.PENDING,
    media_type := detect_media_type file_path,
    created_at := now,
    processed_at := Option.none,
    completed_at := Option.none,
    printer_name := printer_name,
    error_message := Option.none }

/-- Label used by print_bytes in place of a file path. -/
def bytesPathLabel (n : Nat) : String := "<bytes:" ++ (toString n ++ " bytes>")

/-- Pending record created by print_bytes on the success path. -/
def newBytesJob (now : Nat) (printer_name : String) (data : List Nat)
    (opts : Option PrinterJobOptions) (id : Nat) : PrinterJob :=
  { id := id,
    name := (opts.getD PrinterJobOptions.noOpts).name.getD "Raw Bytes Print Job",
    state := PrinterJobState.PENDING,
    media_type := detect_media_type (bytesPathLabel data.length),
    created_at := now,
    processed_at := Option.none,
    completed_at := Option.none,
    printer_name := printer_name,
    error_message := Option.none }

/-- Common success path of a submission: insert the pending record, advance
the id counter, spawn the worker thread. -/
def submitState (job : PrinterJob) (s : SysState) : SysState :=
  { reg := insertJob s.nextId job s.reg,
    nextId := s.nextId + 1,
    phase := fun i => if i = s.nextId then WorkerPhase.spawned else s.phase i,
    shutdownFlag := s.shutdownFlag }

/-- Simulation mode filename heuristics of print_file, in source order: the
missing-file markers are tested before the forced-failure marker. -/
def sim_file_error (file_path : String) : Option PrintError :=
  if strContains file_path "nonexistent" || strContains file_path "does_not_exist" then
    some PrintError.FileNotFound
  else if strContains file_path "fail-test" then some PrintError.SimulatedFailure
  else Option.none

/-- Existence check of print_file: filename heuristics in simulation mode, a
real filesystem check otherwise. -/
def file_check (env : Env) (file_path : String) : Option PrintError :=
  if env.simulate then sim_file_error file_path
  else if env.fileExists file_path then Option.none else some PrintError.FileNotFound

/-- File submission (PrinterCore::print_file). -/
def print_file (env : Env) (uuid : String) (now : Nat) (printer_name file_path : String)
    (opts : Option PrinterJobOptions) (s : SysState) : Except PrintError Nat × SysState :=
  match find_printer_by_name env printer_name with
  | Option.none => (Except.error PrintError.PrinterNotFound, s)
  | some _ =>
    match file_check env file_path with
    | some e => (Except.error e, s)
    | Option.none =>
      (Except.ok s.nextId,
       submitState (newFileJob uuid now printer_name file_path opts s.nextId) s)

/-- Raw byte submission (PrinterCore::print_bytes). -/
def print_bytes (env : Env) (now : Nat) (printer_name : String) (data : List Nat)
    (opts : Option PrinterJobOptions) (s : SysState) : Except PrintError Nat × SysState :=
  match find_printer_by_name env printer_name with
  | Option.none => (Except.error PrintError.PrinterNotFound, s)
  | some _ =>
    (Except.ok s.nextId, submitState (newBytesJob now printer_name data opts s.nextId) s)

/-- Shutdown (PrinterCore::shutdown_library): after the bounded drain of the
worker handles, the tracker is cleared and the shutdown flag is reset. -/
def shutdown_library (s : SysState) : SysState :=
  { s with reg := [], shutdownFlag := false }

/-- One transition of the tracking core: a submission, one of the worker
updates, a worker abandoned by the shutdown signal, a retention sweep, or
shutdown itself. -/
inductive Step : SysState → SysState → Prop
  | submitFile (env : Env) (uuid : String) (now : Nat) (pn fp : String)
      (opts : Option PrinterJobOptions) (s : SysState) (r : Except PrintError Nat)
      (s' : SysState) (h : print_file env uuid now pn fp opts s = (r, s')) : Step s s'
  | submitBytes (env : Env) (now : Nat) (pn : String) (data : List Nat)
      (opts : Option PrinterJobOptions) (s : SysState) (r : Except PrintError Nat)
      (s' : SysState) (h : print_bytes env now pn data opts s = (r, s')) : Step s s'
  | process (id now : Nat) (s : SysState) (h : s.phase id = WorkerPhase.spawned) :
      Step s { s with reg := mark_processing id now s.reg,
                      phase := fun i => if i = id then WorkerPhase.marked else s.phase i }
  | finishOk (id now : Nat) (s : SysState) (h : s.phase id = WorkerPhase.marked) :
      Step s { s with reg := mark_completed id now s.reg,
                      phase := fun i => if i = id then WorkerPhase.done else s.phase i }
  | finishErr (id now : Nat) (msg : String) (s : SysState)
      (h : s.phase id = WorkerPhase.marked) :
      Step s { s with reg := mark_cancelled id now msg s.reg,
                      phase := fun i => if i = id then WorkerPhase.done else s.phase i }
  | abandon (id : Nat) (s : SysState) (h : s.phase id = WorkerPhase.marked) :
      Step s { s with phase := fun i => if i = id then WorkerPhase.done else s.phase i }
  | sweep (now max_age : Nat) (s : SysState) :
      Step s { s with reg := (cleanup_old_jobs now max_age s.reg).1 }
  | shutdown (s : SysState) : Step s (shutdown_library s)

/-- States reachable from process start. -/
def Reachable (s : SysState) : Prop := Relation.ReflTransGen Step initState s

/-- The timestamp and error-message invariants of one job record. -/
def JobInv (j : PrinterJob) : Prop :=
  (j.processed_at.isSome = true ↔ j.state ≠ PrinterJobState.PENDING)
  ∧ (j.completed_at.isSome = true ↔
      (j.state = PrinterJobState.COMPLETED ∨ j.state = PrinterJobState.CANCELLED))
  ∧ (j.error_message.isSome = true ↔ j.state = PrinterJobState.CANCELLED)

/-- Consistency of worker phases with record states. -/
def PhaseOk (s : SysState) : Prop :=
  ∀ p ∈ s.reg,
    (s.phase p.1 = WorkerPhase.spawned → p.2.state = PrinterJobState.PENDING)
    ∧ (s.phase p.1 = WorkerPhase.marked → p.2.state = PrinterJobState.PROCESSING)
    ∧ s.phase p.1 ≠ WorkerPhase.notSpawned

/-- Inductive system invariant: record invariants, freshness of the counter,
and phase consistency. -/
def SysInv (s : SysState) : Prop :=
  (∀ p ∈ s.reg, JobInv p.2)
  ∧ (∀ p ∈ s.reg, p.1 < s.nextId)
  ∧ PhaseOk s
  ∧ (∀ id : Nat, s.phase id ≠ WorkerPhase.notSpawned → id < s.nextId)

/-- Simulation environment with no real printers, used in witnesses. -/
def envSim : Env :=
  { simulate := true, realPrinters := [], realLookup := fun _ => Option.none,
    fileExists := fun _ => false }

/-- Concrete COMPLETED record used in counterexamples and witnesses. -/
def cJob : PrinterJob :=
  { id := 1000, name := "job-a", state := PrinterJobState.COMPLETED,
    media_type := "application/pdf", created_at := 0, processed_at := some 1,
    completed_at := some 2, printer_name := "Simulated Printer",
    error_message := Option.none }

/-- Concrete PENDING record used in witnesses. -/
def pJob : PrinterJob :=
  { id := 1001, name := "job-b", state := PrinterJobState.PENDING,
    media_type := "text/plain", created_at := 0, processed_at := Option.none,
    completed_at := Option.none, printer_name := "Simulated Printer",
    error_message := Option.none }

lemma issuedId_eq (n : Nat) : issuedId n = (NEXT_JOB_ID_seed + n) % U64_SIZE := by
  induction n with
  | zero => decide
  | succ k ih =>
    show (counterAfter k + 1) % U64_SIZE = (NEXT_JOB_ID_seed + (k + 1)) % U64_SIZE
    rw [show counterAfter k = issuedId k from rfl, ih]
    rw [show NEXT_JOB_ID_seed + (k + 1) = (NEXT_JOB_ID_seed + k) + 1 from by omega]
    rw [Nat.add_mod (NEXT_JOB_ID_seed + k) 1]
    rw [show (1 : Nat) % U64_SIZE = 1 from by decide]

lemma issuedId_below_wrap (n : Nat) (hn : n < U64_SIZE - NEXT_JOB_ID_seed) :
    issuedId n = 1000 + n := by
  rw [show NEXT_JOB_ID_seed = 1000 from rfl] at hn
  rw [issuedId_eq, show NEXT_JOB_ID_seed = 1000 from rfl]
  exact Nat.mod_eq_of_lt (by omega)

/-- C5 counterexample: with the u64 wrap of the NEXT_JOB_ID counter, the
allocator is not strictly increasing over every call sequence and does
reissue ids: call number 2 ^ 64 − 1000 returns 0, smaller than the first id
1000, and call number 2 ^ 64 returns 1000, the first id, again. -/
theorem C5_counterexample :
    issuedId (U64_SIZE - 1000) = 0
    ∧ (0 : Nat) < U64_SIZE - 1000
    ∧ ¬ issuedId 0 < issuedId (U64_SIZE - 1000)
    ∧ issuedId U64_SIZE = issuedId 0
    ∧ U64_SIZE ≠ 0 := by
  have h1 : issuedId (U64_SIZE - 1000) = 0 := by
    rw [issuedId_eq,
        show NEXT_JOB_ID_seed + (U64_SIZE - 1000) = U64_SIZE from by decide,
        Nat.mod_self]
  have h0 : issuedId 0 = 1000 := by decide
  refine ⟨h1, by decide, ?_, ?_, by decide⟩
  · rw [h0, h1]
    omega
  · rw [issuedId_eq, issuedId_eq, Nat.add_mod_right, Nat.add_zero]

/-- C5 (amended): within the first 2 ^ 64 − 1000 calls — before the u64
counter wraps — the allocator first returns 1000 and returns pairwise
distinct, strictly increasing ids in issuance order, never reissuing one;
eviction of a record never touches the counter. Beyond the wrap the source
counter repeats, see the counterexample. -/
theorem C5_job_ids_strictly_increasing :
    issuedId 0 = 1000
    ∧ (∀ m n : Nat, m < n → n < U64_SIZE - NEXT_JOB_ID_seed → issuedId m < issuedId n)
    ∧ (∀ m n : Nat, m < U64_SIZE - NEXT_JOB_ID_seed → n < U64_SIZE - NEXT_JOB_ID_seed →
        issuedId m = issuedId n → m = n) := by
  refine ⟨by decide, ?_, ?_⟩
  · intro m n hmn hn
    rw [issuedId_below_wrap m (by omega), issuedId_below_wrap n hn]
    omega
  · intro m n hm hn h
    rw [issuedId_below_wrap m hm, issuedId_below_wrap n hn] at h
    omega

/-- C5 witness: the allocator at concrete call indices below the wrap. -/
theorem C5_witness :
    issuedId 0 = 1000 ∧ issuedId 2 < issuedId 7 ∧ 3 = 3 :=
  ⟨C5_job_ids_strictly_increasing.1,
   C5_job_ids_strictly_increasing.2.1 2 7 (by decide) (by decide),
   C5_job_ids_strictly_increasing.2.2 3 3 (by decide) (by decide) rfl⟩

/-- C7: should_simulate_printing is true exactly when the PRINTERS_JS_SIMULATE
value is the token "true" or the token "1"; any other value, and an absent
variable, yield false. -/
theorem C7_simulate_toggle :
    ∀ v : Option String,
      should_simulate_printing v = true ↔ (v = some "true" ∨ v = some "1") := by
  intro v
  cases v with
  | none => simp [should_simulate_printing]
  | some val => simp [should_simulate_printing]

/-- C1: whenever print_file or print_bytes returns an error, the whole system
state — the job registry and the id counter included — is returned unchanged. -/
theorem C1_failed_submission_no_trace :
    (∀ (env : Env) (uuid : String) (now : Nat) (pn fp : String)
       (opts : Option PrinterJobOptions) (s : SysState) (e : PrintError),
       (print_file env uuid now pn fp opts s).1 = Except.error e →
       (print_file env uuid now pn fp opts s).2 = s)
    ∧ (∀ (env : Env) (now : Nat) (pn : String) (data : List Nat)
       (opts : Option PrinterJobOptions) (s : SysState) (e : PrintError),
       (print_bytes env now pn data opts s).1 = Except.error e →
       (print_bytes env now pn data opts s).2 = s) := by
  constructor
  · intro env uuid now pn fp opts s e h
    unfold print_file at h ⊢
    cases hf : find_printer_by_name env pn with
    | none => simp [hf]
    | some p =>
      cases hc : file_check env fp with
      | none => rw [hf, hc] at h; simp at h
      | some e2 => simp [hf, hc]
  · intro env now pn data opts s e h
    unfold print_bytes at h ⊢
    cases hf : find_printer_by_name env pn with
    | none => simp [hf]
    | some p => rw [hf] at h; simp at h

/-- C1 witness: a failing file submission and a failing byte submission at a
printer name that does not resolve leave the concrete initial state intact. -/
theorem C1_witness :
    (print_file envSim "u" 0 "Nope" "doc.pdf" Option.none initState).2 = initState
    ∧ (print_bytes envSim 0 "Nope" [] Option.none initState).2 = initState :=
  ⟨C1_failed_submission_no_trace.1 envSim "u" 0 "Nope" "doc.pdf" Option.none initState
      PrintError.PrinterNotFound rfl,
   C1_failed_submission_no_trace.2 envSim 0 "Nope" [] Option.none initState
      PrintError.PrinterNotFound rfl⟩

lemma shouldKeepJob_iff (now ma : Nat) (j : PrinterJob) :
    shouldKeepJob now ma j = true
      ↔ ¬(isTerminal j.state = true ∧ ma ≤ now - j.created_at) := by
  cases h : j.state <;>
    simp [shouldKeepJob, isTerminal, h, decide_eq_true_iff]

lemma length_filter_not_eq {α : Type} (f : α → Bool) (l : List α) :
    (l.filter (fun a => !f a)).length = l.length - (l.filter f).length := by
  induction l with
  | nil => rfl
  | cons a t ih =>
    have hle := List.length_filter_le f t
    by_cases h : f a = true
    · simp [List.filter_cons, h, ih]
    · simp [List.filter_cons, h, ih]
      omega

/-- C3 (amended): cleanup_old_jobs retains a record exactly when it is not
both terminal and of age at least max_age — so it removes exactly the
terminal records whose age is greater than or equal to max_age, the source
comparison being non-strict rather than strict; a non-terminal record is
never removed regardless of age; and the returned count equals the registry
size before the sweep minus the size after. -/
theorem C3_sweep_removes_terminal_of_age (now ma : Nat) (reg : Registry) :
    (∀ p : Nat × PrinterJob,
       p ∈ (cleanup_old_jobs now ma reg).1 ↔
         p ∈ reg ∧ ¬(isTerminal p.2.state = true ∧ ma ≤ now - p.2.created_at))
    ∧ (∀ p : Nat × PrinterJob, p ∈ reg → isTerminal p.2.state = false →
        p ∈ (cleanup_old_jobs now ma reg).1)
    ∧ (cleanup_old_jobs now ma reg).2
        = reg.length - (cleanup_old_jobs now ma reg).1.length := by
  refine ⟨?_, ?_, ?_⟩
  · intro p
    rw [show (cleanup_old_jobs now ma reg).1
          = reg.filter (fun p => shouldKeepJob now ma p.2) from rfl]
    rw [List.mem_filter, shouldKeepJob_iff]
  · intro p hp ht
    rw [show (cleanup_old_jobs now ma reg).1
          = reg.filter (fun p => shouldKeepJob now ma p.2) from rfl]
    rw [List.mem_filter, shouldKeepJob_iff]
    exact ⟨hp, by simp [ht]⟩
  · exact length_filter_not_eq _ reg

/-- C3 counterexample: with now = 5 and max_age = 5, a COMPLETED record of
age exactly 5 is removed by cleanup_old_jobs even though its age does not
exceed max_age, refuting the claim that removal happens exactly when the age
strictly exceeds max_age. -/
theorem C3_counterexample :
    isTerminal cJob.state = true ∧ ¬(5 - cJob.created_at > 5)
      ∧ (1000, cJob) ∉ (cleanup_old_jobs 5 5 [(1000, cJob)]).1 := by
  refine ⟨rfl, by decide, ?_⟩
  intro h
  simp [cleanup_old_jobs, cJob, shouldKeepJob] at h

/-- C3 witness: the amended characterization at a concrete registry. -/
theorem C3_witness :
    ((1000, cJob) ∈ (cleanup_old_jobs 5 3 [(1000, cJob), (1001, pJob)]).1 ↔
       (1000, cJob) ∈ [(1000, cJob), (1001, pJob)]
         ∧ ¬(isTerminal cJob.state = true ∧ 3 ≤ 5 - cJob.created_at))
    ∧ (1001, pJob) ∈ (cleanup_old_jobs 5 3 [(1000, cJob), (1001, pJob)]).1
    ∧ (cleanup_old_jobs 5 3 [(1000, cJob), (1001, pJob)]).2
        = [(1000, cJob), (1001, pJob)].length
            - (cleanup_old_jobs 5 3 [(1000, cJob), (1001, pJob)]).1.length :=
  ⟨(C3_sweep_removes_terminal_of_age 5 3 [(1000, cJob), (1001, pJob)]).1 (1000, cJob),
   (C3_sweep_removes_terminal_of_age 5 3 [(1000, cJob), (1001, pJob)]).2.1 (1001, pJob)
     (by decide) rfl,
   (C3_sweep_removes_terminal_of_age 5 3 [(1000, cJob), (1001, pJob)]).2.2⟩

/-- C4: sweeping with max_age zero removes every terminal record, keeps every
PENDING, PROCESSING or PAUSED record, and a second zero-age sweep right after
— at any later clock value, with no intervening transitions — removes zero
records. -/
theorem C4_zero_sweep_idempotent (now : Nat) (reg : Registry) :
    (∀ p : Nat × PrinterJob, p ∈ reg → isTerminal p.2.state = true →
        p ∉ (cleanup_old_jobs now 0 reg).1)
    ∧ (∀ p : Nat × PrinterJob, p ∈ reg →
        (p.2.state = PrinterJobState.PENDING ∨ p.2.state = PrinterJobState.PROCESSING
          ∨ p.2.state = PrinterJobState.PAUSED) →
        p ∈ (cleanup_old_jobs now 0 reg).1)
    ∧ ∀ now2 : Nat, (cleanup_old_jobs now2 0 (cleanup_old_jobs now 0 reg).1).2 = 0 := by
  refine ⟨?_, ?_, ?_⟩
  · intro p hp ht hmem
    rw [show (cleanup_old_jobs now 0 reg).1
          = reg.filter (fun p => shouldKeepJob now 0 p.2) from rfl,
        List.mem_filter, shouldKeepJob_iff] at hmem
    exact hmem.2 ⟨ht, Nat.zero_le _⟩
  · intro p hp hst
    rw [show (cleanup_old_jobs now 0 reg).1
          = reg.filter (fun p => shouldKeepJob now 0 p.2) from rfl,
        List.mem_filter, shouldKeepJob_iff]
    refine ⟨hp, ?_⟩
    rintro ⟨ht, _⟩
    rcases hst with h | h | h <;> rw [h] at ht <;> simp [isTerminal] at ht
  · intro now2
    rw [show (cleanup_old_jobs now2 0 (cleanup_old_jobs now 0 reg).1).2
          = ((cleanup_old_jobs now 0 reg).1.filter
              (fun p => !shouldKeepJob now2 0 p.2)).length from rfl]
    rw [List.length_eq_zero, List.filter_eq_nil_iff]
    intro p hmem
    rw [show (cleanup_old_jobs now 0 reg).1
          = reg.filter (fun p => shouldKeepJob now 0 p.2) from rfl,
        List.mem_filter, shouldKeepJob_iff] at hmem
    have hkeep : shouldKeepJob now2 0 p.2 = true := by
      rw [shouldKeepJob_iff]
      rintro ⟨ht, _⟩
      exact hmem.2 ⟨ht, Nat.zero_le _⟩
    simp [hkeep]

/-- C4 witness: the zero-age sweep on a concrete mixed registry. -/
theorem C4_witness :
    (1000, cJob) ∉ (cleanup_old_jobs 7 0 [(1000, cJob), (1001, pJob)]).1
    ∧ (1001, pJob) ∈ (cleanup_old_jobs 7 0 [(1000, cJob), (1001, pJob)]).1
    ∧ (cleanup_old_jobs 9 0 (cleanup_old_jobs 7 0 [(1000, cJob), (1001, pJob)]).1).2 = 0 :=
  ⟨(C4_zero_sweep_idempotent 7 [(1000, cJob), (1001, pJob)]).1 (1000, cJob)
      (by decide) rfl,
   (C4_zero_sweep_idempotent 7 [(1000, cJob), (1001, pJob)]).2.1 (1001, pJob)
      (by decide) (Or.inl rfl),
   (C4_zero_sweep_idempotent 7 [(1000, cJob), (1001, pJob)]).2.2 9⟩

lemma find_sim_some (env : Env) (h : env.simulate = true) :
    ∃ p, find_printer_by_name env "Simulated Printer" = some p := by
  unfold find_printer_by_name
  rw [h]
  simp only [if_true, if_pos rfl]
  cases env.realPrinters.head? <;> simp

/-- C6 (amended): in simulation mode printer resolution succeeds exactly for
the name "Simulated Printer"; a file path containing a missing-file marker
fails with FileNotFound; a path containing the forced-failure marker and no
missing-file marker — the missing-file check runs first — fails with
SimulatedFailure; and a path containing neither marker succeeds with the
current counter value as job id. -/
theorem C6_simulation_policy :
    (∀ env : Env, env.simulate = true →
       ∀ nm : String,
         ((find_printer_by_name env nm).isSome = true ↔ nm = "Simulated Printer"))
    ∧ (∀ (env : Env) (uuid : String) (now : Nat) (fp : String)
         (opts : Option PrinterJobOptions) (s : SysState),
       env.simulate = true →
       (strContains fp "nonexistent" || strContains fp "does_not_exist") = true →
       (print_file env uuid now "Simulated Printer" fp opts s).1
         = Except.error PrintError.FileNotFound)
    ∧ (∀ (env : Env) (uuid : String) (now : Nat) (fp : String)
         (opts : Option PrinterJobOptions) (s : SysState),
       env.simulate = true →
       (strContains fp "nonexistent" || strContains fp "does_not_exist") = false →
       strContains fp "fail-test" = true →
       (print_file env uuid now "Simulated Printer" fp opts s).1
         = Except.error PrintError.SimulatedFailure)
    ∧ (∀ (env : Env) (uuid : String) (now : Nat) (fp : String)
         (opts : Option PrinterJobOptions) (s : SysState),
       env.simulate = true →
       (strContains fp "nonexistent" || strContains fp "does_not_exist") = false →
       strContains fp "fail-test" = false →
       (print_file env uuid now "Simulated Printer" fp opts s).1
         = Except.ok s.nextId) := by
  refine ⟨?_, ?_, ?_, ?_⟩
  · intro env hs nm
    unfold find_printer_by_name
    rw [hs]
    by_cases hn : nm = "Simulated Printer"
    · rw [if_pos rfl, if_pos hn]
      cases env.realPrinters.head? <;> simp [hn]
    · rw [if_pos rfl, if_neg hn]
      simp [hn]
  · intro env uuid now fp opts s hs hm
    obtain ⟨p, hp⟩ := find_sim_some env hs
    unfold print_file
    rw [hp]
    simp [file_check, hs, sim_file_error, hm]
  · intro env uuid now fp opts s hs hm hf
    obtain ⟨p, hp⟩ := find_sim_some env hs
    unfold print_file
    rw [hp]
    simp [file_check, hs, sim_file_error, hm, hf]
  · intro env uuid now fp opts s hs hm hf
    obtain ⟨p, hp⟩ := find_sim_some env hs
    unfold print_file
    rw [hp]
    simp [file_check, hs, sim_file_error, hm, hf]

/-- C6 counterexample: the path "nonexistent-fail-test.pdf" contains the
forced-failure marker "fail-test", yet a simulation-mode submission of it to
the synthetic printer fails with FileNotFound, not SimulatedFailure: the
missing-file markers take precedence. -/
theorem C6_counterexample :
    strContains "nonexistent-fail-test.pdf" "fail-test" = true
    ∧ (print_file envSim "u" 0 "Simulated Printer" "nonexistent-fail-test.pdf"
         Option.none initState).1 = Except.error PrintError.FileNotFound
    ∧ PrintError.FileNotFound ≠ PrintError.SimulatedFailure :=
  ⟨rfl, rfl, by decide⟩

/-- C6 witness: the amended policy exercised at concrete paths. -/
theorem C6_witness :
    ((find_printer_by_name envSim "Simulated Printer").isSome = true
       ↔ "Simulated Printer" = "Simulated Printer")
    ∧ (print_file envSim "u" 0 "Simulated Printer" "/tmp/does_not_exist.pdf"
         Option.none initState).1 = Except.error PrintError.FileNotFound
    ∧ (print_file envSim "u" 0 "Simulated Printer" "/tmp/fail-test.pdf"
         Option.none initState).1 = Except.error PrintError.SimulatedFailure
    ∧ (print_file envSim "u" 0 "Simulated Printer" "/tmp/plain.pdf"
         Option.none initState).1 = Except.ok initState.nextId :=
  ⟨C6_simulation_policy.1 envSim rfl "Simulated Printer",
   C6_simulation_policy.2.1 envSim "u" 0 "/tmp/does_not_exist.pdf" Option.none initState
     rfl rfl,
   C6_simulation_policy.2.2.1 envSim "u" 0 "/tmp/fail-test.pdf" Option.none initState
     rfl rfl rfl,
   C6_simulation_policy.2.2.2 envSim "u" 0 "/tmp/plain.pdf" Option.none initState
     rfl rfl rfl⟩

lemma lookupJob_insertJob (k : Nat) (v : PrinterJob) (reg : Registry) :
    lookupJob k (insertJob k v reg) = some v := by
  unfold lookupJob insertJob
  rw [List.find?_cons_of_pos _ (by simp)]
  rfl

/-- C8 counterexample: two file submissions identical in every respect —
same printer, same path "doc.pdf", empty options — but drawing different
fresh UUIDs receive the different names "uuid-a" and "uuid-b": the defaulted
name is the fresh UUID, not a value derived from the source filename. Byte
submissions of different lengths both receive the fixed string
"Raw Bytes Print Job". -/
theorem C8_counterexample :
    (lookupJob 1000 (print_file envSim "uuid-a" 0 "Simulated Printer" "doc.pdf"
        Option.none initState).2.reg).map PrinterJob.name = some "uuid-a"
    ∧ (lookupJob 1000 (print_file envSim "uuid-b" 0 "Simulated Printer" "doc.pdf"
        Option.none initState).2.reg).map PrinterJob.name = some "uuid-b"
    ∧ ("uuid-a" : String) ≠ "uuid-b"
    ∧ (lookupJob 1000 (print_bytes envSim 0 "Simulated Printer" [] Option.none
        initState).2.reg).map PrinterJob.name = some "Raw Bytes Print Job"
    ∧ (lookupJob 1000 (print_bytes envSim 0 "Simulated Printer" [7, 8, 9] Option.none
        initState).2.reg).map PrinterJob.name = some "Raw Bytes Print Job" :=
  ⟨rfl, rfl, by decide, rfl, rfl⟩

/-- C8 (amended): when the options carry no explicit display name, the record
created by a successful file submission is named with the fresh UUID drawn at
submission, and the record created by a byte submission is named with the
fixed string "Raw Bytes Print Job"; a raw options map without a job-name key
yields options with no display name. -/
theorem C8_default_names :
    (∀ (env : Env) (uuid : String) (now : Nat) (pn fp : String)
       (opts : Option PrinterJobOptions) (s : SysState),
       (opts.getD PrinterJobOptions.noOpts).name = Option.none →
       ∀ (id : Nat) (s2 : SysState),
         print_file env uuid now pn fp opts s = (Except.ok id, s2) →
         (lookupJob id s2.reg).map PrinterJob.name = some uuid)
    ∧ (∀ (env : Env) (now : Nat) (pn : String) (data : List Nat)
       (opts : Option PrinterJobOptions) (s : SysState),
       (opts.getD PrinterJobOptions.noOpts).name = Option.none →
       ∀ (id : Nat) (s2 : SysState),
         print_bytes env now pn data opts s = (Except.ok id, s2) →
         (lookupJob id s2.reg).map PrinterJob.name = some "Raw Bytes Print Job")
    ∧ (∀ m : List (String × String), (∀ kv ∈ m, kv.1 ≠ "job-name") →
         (PrinterJobOptions.from_map m).name = Option.none) := by
  refine ⟨?_, ?_, ?_⟩
  · intro env uuid now pn fp opts s hn id s2 h
    unfold print_file at h
    cases hf : find_printer_by_name env pn with
    | none => rw [hf] at h; simp at h
    | some p =>
      cases hc : file_check env fp with
      | some e => rw [hf, hc] at h; simp at h
      | none =>
        rw [hf, hc] at h
        rw [Prod.mk.injEq] at h
        obtain ⟨hid, hs2⟩ := h
        cases hid
        rw [← hs2]
        rw [show (submitState (newFileJob uuid now pn fp opts s.nextId) s).reg
              = insertJob s.nextId (newFileJob uuid now pn fp opts s.nextId) s.reg
            from rfl]
        rw [lookupJob_insertJob]
        simp [newFileJob, hn]
  · intro env now pn data opts s hn id s2 h
    unfold print_bytes at h
    cases hf : find_printer_by_name env pn with
    | none => rw [hf] at h; simp at h
    | some p =>
      rw [hf] at h
      rw [Prod.mk.injEq] at h
      obtain ⟨hid, hs2⟩ := h
      cases hid
      rw [← hs2]
      rw [show (submitState (newBytesJob now pn data opts s.nextId) s).reg
            = insertJob s.nextId (newBytesJob now pn data opts s.nextId) s.reg
          from rfl]
      rw [lookupJob_insertJob]
      simp [newBytesJob, hn]
  · intro m hm
    unfold PrinterJobOptions.from_map
    rw [show ((m.find? (fun kv => kv.1 == "job-name")).map Prod.snd : Option String)
          = Option.none ↔ m.find? (fun kv => kv.1 == "job-name") = Option.none
        from by cases m.find? (fun kv => kv.1 == "job-name") <;> simp]
    rw [List.find?_eq_none]
    intro kv hkv
    simp [hm kv hkv]

/-- C8 witness: the default names at concrete submissions, and a concrete
raw map without a job-name key. -/
theorem C8_witness :
    (lookupJob 1000 (print_file envSim "fresh-uuid" 3 "Simulated Printer" "doc.pdf"
        Option.none initState).2.reg).map PrinterJob.name = some "fresh-uuid"
    ∧ (lookupJob 1000 (print_bytes envSim 3 "Simulated Printer" [1, 2] Option.none
        initState).2.reg).map PrinterJob.name = some "Raw Bytes Print Job"
    ∧ (PrinterJobOptions.from_map [("copies", "2")]).name = Option.none :=
  ⟨C8_default_names.1 envSim "fresh-uuid" 3 "Simulated Printer" "doc.pdf"
      Option.none initState rfl 1000 _ rfl,
   C8_default_names.2.1 envSim 3 "Simulated Printer" [1, 2] Option.none initState
      rfl 1000 _ rfl,
   C8_default_names.2.2 [("copies", "2")] (by decide)⟩

/-- C9: shutdown_library leaves the registry empty with the cancellation
flag reset to false and the id counter intact, and a submission made
afterwards — print_file never consults the flag — succeeds normally whenever
the printer resolves and the payload passes the existence check. -/
theorem C9_shutdown_resets_state :
    (∀ s : SysState,
       (shutdown_library s).reg = [] ∧ (shutdown_library s).shutdownFlag = false
       ∧ (shutdown_library s).nextId = s.nextId)
    ∧ (∀ (s : SysState) (env : Env) (uuid : String) (now : Nat) (pn fp : String)
         (opts : Option PrinterJobOptions),
       (find_printer_by_name env pn).isSome = true →
       file_check env fp = Option.none →
       (print_file env uuid now pn fp opts (shutdown_library s)).1
         = Except.ok s.nextId) := by
  constructor
  · intro s
    exact ⟨rfl, rfl, rfl⟩
  · intro s env uuid now pn fp opts hfind hchk
    obtain ⟨p, hp⟩ := Option.isSome_iff_exists.mp hfind
    unfold print_file
    rw [hp, hchk]
    rfl

/-- Concrete pre-shutdown state used by the C9 witness. -/
def dirtyState : SysState :=
  { reg := [(1000, cJob)], nextId := 1001,
    phase := fun _ => WorkerPhase.done, shutdownFlag := true }

/-- C9 witness: shutdown of a concrete dirty state, then a successful
submission to the simulated printer. -/
theorem C9_witness :
    (shutdown_library dirtyState).reg = []
    ∧ (shutdown_library dirtyState).shutdownFlag = false
    ∧ (print_file envSim "u" 9 "Simulated Printer" "doc.pdf" Option.none
        (shutdown_library dirtyState)).1 = Except.ok 1001 :=
  ⟨(C9_shutdown_resets_state.1 dirtyState).1,
   (C9_shutdown_resets_state.1 dirtyState).2.1,
   C9_shutdown_resets_state.2 dirtyState
      envSim "u" 9 "Simulated Printer" "doc.pdf" Option.none rfl rfl⟩

lemma listIsPrefixOf_self_append (l t : List Char) :
    listIsPrefixOf l (l ++ t) = true := by
  induction l with
  | nil => rfl
  | cons a as ih => simp [listIsPrefixOf, ih]

lemma detect_media_type_bytesPathLabel (n : Nat) :
    detect_media_type (bytesPathLabel n) = "application/vnd.cups-raw" := by
  have hdata : (bytesPathLabel n).data
      = "<bytes:".data ++ (toString n ++ " bytes>").data := by
    unfold bytesPathLabel
    cases h : (toString n ++ " bytes>") with
    | mk l => rfl
  have hpre : strStartsWith (bytesPathLabel n) "<bytes:" = true := by
    unfold strStartsWith
    rw [hdata]
    exact listIsPrefixOf_self_append _ _
  unfold detect_media_type
  rw [hpre]
  rfl

/-- C10: for every byte payload and options, if the printer resolves then
print_bytes returns Ok with the current counter value as a fresh id,
advances the counter, and inserts a PENDING record whose media type is the
raw-bytes sentinel; and print_bytes never returns FileNotFound or
SimulatedFailure on any input. -/
theorem C10_print_bytes_raw_sentinel :
    (∀ (env : Env) (now : Nat) (pn : String) (data : List Nat)
       (opts : Option PrinterJobOptions) (s : SysState),
       (find_printer_by_name env pn).isSome = true →
       (print_bytes env now pn data opts s).1 = Except.ok s.nextId
       ∧ (print_bytes env now pn data opts s).2.nextId = s.nextId + 1
       ∧ lookupJob s.nextId (print_bytes env now pn data opts s).2.reg
           = some (newBytesJob now pn data opts s.nextId)
       ∧ (newBytesJob now pn data opts s.nextId).state = PrinterJobState.PENDING
       ∧ (newBytesJob now pn data opts s.nextId).media_type
           = "application/vnd.cups-raw")
    ∧ (∀ (env : Env) (now : Nat) (pn : String) (data : List Nat)
       (opts : Option PrinterJobOptions) (s : SysState),
       (print_bytes env now pn data opts s).1 ≠ Except.error PrintError.FileNotFound
       ∧ (print_bytes env now pn data opts s).1
           ≠ Except.error PrintError.SimulatedFailure) := by
  constructor
  · intro env now pn data opts s hfind
    obtain ⟨p, hp⟩ := Option.isSome_iff_exists.mp hfind
    unfold print_bytes
    rw [hp]
    refine ⟨rfl, rfl, ?_, rfl, ?_⟩
    · exact lookupJob_insertJob _ _ _
    · rw [show (newBytesJob now pn data opts s.nextId).media_type
            = detect_media_type (bytesPathLabel data.length) from rfl]
      exact detect_media_type_bytesPathLabel _
  · intro env now pn data opts s
    unfold print_bytes
    cases hf : find_printer_by_name env pn <;> simp

/-- C10 witness: a zero-length byte submission to the simulated printer. -/
theorem C10_witness :
    (print_bytes envSim 0 "Simulated Printer" [] Option.none initState).1
      = Except.ok 1000
    ∧ lookupJob 1000 (print_bytes envSim 0 "Simulated Printer" [] Option.none
        initState).2.reg
      = some (newBytesJob 0 "Simulated Printer" [] Option.none 1000)
    ∧ (newBytesJob 0 "Simulated Printer" [] Option.none 1000).media_type
      = "application/vnd.cups-raw"
    ∧ (print_bytes envSim 0 "Simulated Printer" [] Option.none initState).1
      ≠ Except.error PrintError.FileNotFound :=
  ⟨(C10_print_bytes_raw_sentinel.1 envSim 0 "Simulated Printer" [] Option.none
      initState rfl).1,
   (C10_print_bytes_raw_sentinel.1 envSim 0 "Simulated Printer" [] Option.none
      initState rfl).2.2.1,
   (C10_print_bytes_raw_sentinel.1 envSim 0 "Simulated Printer" [] Option.none
      initState rfl).2.2.2.2,
   (C10_print_bytes_raw_sentinel.2 envSim 0 "Simulated Printer" [] Option.none
      initState).1⟩

lemma mem_insertJob {p : Nat × PrinterJob} (k : Nat) (v : PrinterJob) (reg : Registry) :
    p ∈ insertJob k v reg ↔ p = (k, v) ∨ (p ∈ reg ∧ p.1 ≠ k) := by
  unfold insertJob
  simp [List.mem_filter, bne_iff_ne]

lemma mem_updateJob {p : Nat × PrinterJob} (k : Nat) (f : PrinterJob → PrinterJob)
    (reg : Registry) (hp : p ∈ updateJob k f reg) :
    ∃ q ∈ reg, p = if q.1 = k then (q.1, f q.2) else q := by
  unfold updateJob at hp
  obtain ⟨q, hq, he⟩ := List.mem_map.mp hp
  exact ⟨q, hq, he.symm⟩

lemma jobInv_processing (j : PrinterJob) (hj : JobInv j)
    (hst : j.state = PrinterJobState.PENDING) (now : Nat) :
    JobInv { j with state := PrinterJobState.PROCESSING, processed_at := some now } := by
  obtain ⟨h1, h2, h3⟩ := hj
  rw [hst] at h2 h3
  simp at h2 h3
  exact ⟨by simp, by simp [JobInv, h2], by simp [JobInv, h3]⟩

lemma jobInv_completed (j : PrinterJob) (hj : JobInv j)
    (hst : j.state = PrinterJobState.PROCESSING) (now : Nat) :
    JobInv { j with state := PrinterJobState.COMPLETED, completed_at := some now } := by
  obtain ⟨h1, h2, h3⟩ := hj
  rw [hst] at h1 h3
  simp at h1 h3
  exact ⟨by simp [h1], by simp, by simp [h3]⟩

lemma jobInv_cancelled (j : PrinterJob) (hj : JobInv j)
    (hst : j.state = PrinterJobState.PROCESSING) (now : Nat) (msg : String) :
    JobInv { j with state := PrinterJobState.CANCELLED,
                    error_message := some msg, completed_at := some now } := by
  obtain ⟨h1, h2, h3⟩ := hj
  rw [hst] at h1
  simp at h1
  exact ⟨by simp [h1], by simp, by simp⟩

lemma sysInv_initState : SysInv initState := by
  refine ⟨?_, ?_, ?_, ?_⟩
  · intro p hp; simp [initState] at hp
  · intro p hp; simp [initState] at hp
  · intro p hp; simp [initState] at hp
  · intro id h; exact absurd rfl h

lemma sysInv_submitState {s : SysState} (hs : SysInv s) (job : PrinterJob)
    (h1 : job.state = PrinterJobState.PENDING)
    (h2 : job.processed_at = Option.none)
    (h3 : job.completed_at = Option.none)
    (h4 : job.error_message = Option.none) :
    SysInv (submitState job s) := by
  obtain ⟨hinv, hfresh, hphase, hpb⟩ := hs
  refine ⟨?_, ?_, ?_, ?_⟩
  · intro p hp
    rw [show (submitState job s).reg = insertJob s.nextId job s.reg from rfl,
        mem_insertJob] at hp
    rcases hp with rfl | ⟨hp, hne⟩
    · exact ⟨by simp [h1, h2], by simp [h1, h3], by simp [h1, h4]⟩
    · exact hinv p hp
  · intro p hp
    rw [show (submitState job s).reg = insertJob s.nextId job s.reg from rfl,
        mem_insertJob] at hp
    rw [show (submitState job s).nextId = s.nextId + 1 from rfl]
    rcases hp with rfl | ⟨hp, hne⟩
    · omega
    · have := hfresh p hp
      omega
  · intro p hp
    rw [show (submitState job s).reg = insertJob s.nextId job s.reg from rfl,
        mem_insertJob] at hp
    rcases hp with rfl | ⟨hp, hne⟩
    · refine ⟨fun _ => h1, fun hmk => ?_, ?_⟩
      · simp [submitState] at hmk
      · simp [submitState]
    · have hold := hphase p hp
      refine ⟨fun hsp => hold.1 ?_, fun hmk => hold.2.1 ?_, fun hns => hold.2.2 ?_⟩
      · simpa [submitState, hne] using hsp
      · simpa [submitState, hne] using hmk
      · simpa [submitState, hne] using hns
  · intro id h
    rw [show (submitState job s).nextId = s.nextId + 1 from rfl]
    by_cases hid : id = s.nextId
    · omega
    · have hold : s.phase id ≠ WorkerPhase.notSpawned := by
        simpa [submitState, hid] using h
      have := hpb id hold
      omega

lemma print_file_snd (env : Env) (uuid : String) (now : Nat) (pn fp : String)
    (opts : Option PrinterJobOptions) (s : SysState) :
    (print_file env uuid now pn fp opts s).2 = s
    ∨ (print_file env uuid now pn fp opts s).2
        = submitState (newFileJob uuid now pn fp opts s.nextId) s := by
  unfold print_file
  cases hf : find_printer_by_name env pn
  · left; rfl
  · cases hc : file_check env fp
    · right; rfl
    · left; rfl

lemma print_bytes_snd (env : Env) (now : Nat) (pn : String) (data : List Nat)
    (opts : Option PrinterJobOptions) (s : SysState) :
    (print_bytes env now pn data opts s).2 = s
    ∨ (print_bytes env now pn data opts s).2
        = submitState (newBytesJob now pn data opts s.nextId) s := by
  unfold print_bytes
  cases hf : find_printer_by_name env pn
  · left; rfl
  · right; rfl

lemma mem_mark_processing {p : Nat × PrinterJob} (id now : Nat) (reg : Registry)
    (hp : p ∈ mark_processing id now reg) :
    ∃ q ∈ reg, p = if q.1 = id
      then (q.1, { q.2 with state := PrinterJobState.PROCESSING, processed_at := some now })
      else q :=
  mem_updateJob id _ reg hp

lemma mem_mark_completed {p : Nat × PrinterJob} (id now : Nat) (reg : Registry)
    (hp : p ∈ mark_completed id now reg) :
    ∃ q ∈ reg, p = if q.1 = id
      then (q.1, { q.2 with state := PrinterJobState.COMPLETED, completed_at := some now })
      else q :=
  mem_updateJob id _ reg hp

lemma mem_mark_cancelled {p : Nat × PrinterJob} (id now : Nat) (msg : String)
    (reg : Registry) (hp : p ∈ mark_cancelled id now msg reg) :
    ∃ q ∈ reg, p = if q.1 = id
      then (q.1, { q.2 with state := PrinterJobState.CANCELLED, error_message := some msg, completed_at := some now })
      else q :=
  mem_updateJob id _ reg hp

lemma step_preserves {s s' : SysState} (hstep : Step s s') (hs : SysInv s) :
    SysInv s' := by
  cases hstep with
  | submitFile env uuid now pn fp opts _ r _ heq =>
    have h2 : s' = (print_file env uuid now pn fp opts s).2 := by rw [heq]
    rcases print_file_snd env uuid now pn fp opts s with he | he
    · rw [h2, he]; exact hs
    · rw [h2, he]
      exact sysInv_submitState hs _ rfl rfl rfl rfl
  | submitBytes env now pn data opts _ r _ heq =>
    have h2 : s' = (print_bytes env now pn data opts s).2 := by rw [heq]
    rcases print_bytes_snd env now pn data opts s with he | he
    · rw [h2, he]; exact hs
    · rw [h2, he]
      exact sysInv_submitState hs _ rfl rfl rfl rfl
  | process id now _ h =>
    obtain ⟨hinv, hfresh, hphase, hpb⟩ := hs
    refine ⟨?_, ?_, ?_, ?_⟩
    · intro p hp
      obtain ⟨q, hq, hpe⟩ := mem_mark_processing id now s.reg hp
      by_cases hqk : q.1 = id
      · rw [if_pos hqk] at hpe
        rw [hpe]
        have hqPend : q.2.state = PrinterJobState.PENDING :=
          (hphase q hq).1 (by rw [hqk]; exact h)
        exact jobInv_processing q.2 (hinv q hq) hqPend now
      · rw [if_neg hqk] at hpe
        rw [hpe]
        exact hinv q hq
    · intro p hp
      obtain ⟨q, hq, hpe⟩ := mem_mark_processing id now s.reg hp
      have := hfresh q hq
      by_cases hqk : q.1 = id
      · rw [if_pos hqk] at hpe; rw [hpe]; exact this
      · rw [if_neg hqk] at hpe; rw [hpe]; exact this
    · intro p hp
      obtain ⟨q, hq, hpe⟩ := mem_mark_processing id now s.reg hp
      by_cases hqk : q.1 = id
      · rw [if_pos hqk] at hpe
        rw [hpe]
        refine ⟨fun hc => ?_, fun _ => rfl, ?_⟩
        · simp [hqk] at hc
        · simp [hqk]
      · rw [if_neg hqk] at hpe
        rw [hpe]
        have hold := hphase q hq
        refine ⟨fun hsp => hold.1 ?_, fun hmk => hold.2.1 ?_, fun hns => hold.2.2 ?_⟩
        · simpa [hqk] using hsp
        · simpa [hqk] using hmk
        · simpa [hqk] using hns
    · intro idx hidx
      by_cases hik : idx = id
      · exact hpb idx (by rw [hik, h]; simp)
      · exact hpb idx (by simpa [hik] using hidx)
  | finishOk id now _ h =>
    obtain ⟨hinv, hfresh, hphase, hpb⟩ := hs
    refine ⟨?_, ?_, ?_, ?_⟩
    · intro p hp
      obtain ⟨q, hq, hpe⟩ := mem_mark_completed id now s.reg hp
      by_cases hqk : q.1 = id
      · rw [if_pos hqk] at hpe
        rw [hpe]
        have hqProc : q.2.state = PrinterJobState.PROCESSING :=
          (hphase q hq).2.1 (by rw [hqk]; exact h)
        exact jobInv_completed q.2 (hinv q hq) hqProc now
      · rw [if_neg hqk] at hpe
        rw [hpe]
        exact hinv q hq
    · intro p hp
      obtain ⟨q, hq, hpe⟩ := mem_mark_completed id now s.reg hp
      have := hfresh q hq
      by_cases hqk : q.1 = id
      · rw [if_pos hqk] at hpe; rw [hpe]; exact this
      · rw [if_neg hqk] at hpe; rw [hpe]; exact this
    · intro p hp
      obtain ⟨q, hq, hpe⟩ := mem_mark_completed id now s.reg hp
      by_cases hqk : q.1 = id
      · rw [if_pos hqk] at hpe
        rw [hpe]
        refine ⟨fun hc => ?_, fun hc => ?_, ?_⟩
        · simp [hqk] at hc
        · simp [hqk] at hc
        · simp [hqk]
      · rw [if_neg hqk] at hpe
        rw [hpe]
        have hold := hphase q hq
        refine ⟨fun hsp => hold.1 ?_, fun hmk => hold.2.1 ?_, fun hns => hold.2.2 ?_⟩
        · simpa [hqk] using hsp
        · simpa [hqk] using hmk
        · simpa [hqk] using hns
    · intro idx hidx
      by_cases hik : idx = id
      · exact hpb idx (by rw [hik, h]; simp)
      · exact hpb idx (by simpa [hik] using hidx)
  | finishErr id now msg _ h =>
    obtain ⟨hinv, hfresh, hphase, hpb⟩ := hs
    refine ⟨?_, ?_, ?_, ?_⟩
    · intro p hp
      obtain ⟨q, hq, hpe⟩ := mem_mark_cancelled id now msg s.reg hp
      by_cases hqk : q.1 = id
      · rw [if_pos hqk] at hpe
        rw [hpe]
        have hqProc : q.2.state = PrinterJobState.PROCESSING :=
          (hphase q hq).2.1 (by rw [hqk]; exact h)
        exact jobInv_cancelled q.2 (hinv q hq) hqProc now msg
      · rw [if_neg hqk] at hpe
        rw [hpe]
        exact hinv q hq
    · intro p hp
      obtain ⟨q, hq, hpe⟩ := mem_mark_cancelled id now msg s.reg hp
      have := hfresh q hq
      by_cases hqk : q.1 = id
      · rw [if_pos hqk] at hpe; rw [hpe]; exact this
      · rw [if_neg hqk] at hpe; rw [hpe]; exact this
    · intro p hp
      obtain ⟨q, hq, hpe⟩ := mem_mark_cancelled id now msg s.reg hp
      by_cases hqk : q.1 = id
      · rw [if_pos hqk] at hpe
        rw [hpe]
        refine ⟨fun hc => ?_, fun hc => ?_, ?_⟩
        · simp [hqk] at hc
        · simp [hqk] at hc
        · simp [hqk]
      · rw [if_neg hqk] at hpe
        rw [hpe]
        have hold := hphase q hq
        refine ⟨fun hsp => hold.1 ?_, fun hmk => hold.2.1 ?_, fun hns => hold.2.2 ?_⟩
        · simpa [hqk] using hsp
        · simpa [hqk] using hmk
        · simpa [hqk] using hns
    · intro idx hidx
      by_cases hik : idx = id
      · exact hpb idx (by rw [hik, h]; simp)
      · exact hpb idx (by simpa [hik] using hidx)
  | abandon id _ h =>
    obtain ⟨hinv, hfresh, hphase, hpb⟩ := hs
    refine ⟨hinv, hfresh, ?_, ?_⟩
    · intro p hp
      by_cases hqk : p.1 = id
      · refine ⟨fun hc => ?_, fun hc => ?_, ?_⟩
        · simp [hqk] at hc
        · simp [hqk] at hc
        · simp [hqk]
      · have hold := hphase p hp
        refine ⟨fun hsp => hold.1 ?_, fun hmk => hold.2.1 ?_, fun hns => hold.2.2 ?_⟩
        · simpa [hqk] using hsp
        · simpa [hqk] using hmk
        · simpa [hqk] using hns
    · intro idx hidx
      by_cases hik : idx = id
      · exact hpb idx (by rw [hik, h]; simp)
      · exact hpb idx (by simpa [hik] using hidx)
  | sweep now max_age _ =>
    obtain ⟨hinv, hfresh, hphase, hpb⟩ := hs
    refine ⟨?_, ?_, ?_, hpb⟩
    · intro p hp
      exact hinv p (List.mem_filter.mp hp).1
    · intro p hp
      exact hfresh p (List.mem_filter.mp hp).1
    · intro p hp
      exact hphase p (List.mem_filter.mp hp).1
  | shutdown _ =>
    obtain ⟨hinv, hfresh, hphase, hpb⟩ := hs
    refine ⟨?_, ?_, ?_, hpb⟩
    · intro p hp; simp [shutdown_library] at hp
    · intro p hp; simp [shutdown_library] at hp
    · intro p hp; simp [shutdown_library] at hp

lemma reachable_sysInv {s : SysState} (h : Reachable s) : SysInv s := by
  induction h with
  | refl => exact sysInv_initState
  | tail _ hbc ih => exact step_preserves hbc ih

/-- C2: in every system state reachable from process start through
submissions, the worker transitions of handle_print_job_simple and
handle_print_bytes_job, shutdown-abandoned workers, retention sweeps and
shutdown, every record in the registry satisfies: processed_at is Some iff
the state is not PENDING, completed_at is Some iff the state is COMPLETED or
CANCELLED, and error_message is Some iff the state is CANCELLED. -/
theorem C2_record_invariants (s : SysState) (h : Reachable s) :
    ∀ p ∈ s.reg, JobInv p.2 :=
  fun p hp => (reachable_sysInv h).1 p hp

/-- C2 witness: the invariant read off the record created by one concrete
submission step from the initial state. -/
theorem C2_witness :
    JobInv (newFileJob "job-uuid" 0 "Simulated Printer" "doc.pdf" Option.none 1000) :=
  C2_record_invariants
    (print_file envSim "job-uuid" 0 "Simulated Printer" "doc.pdf" Option.none initState).2
    (Relation.ReflTransGen.single
      (Step.submitFile envSim "job-uuid" 0 "Simulated Printer" "doc.pdf" Option.none
        initState
        (print_file envSim "job-uuid" 0 "Simulated Printer" "doc.pdf" Option.none
          initState).1
        (print_file envSim "job-uuid" 0 "Simulated Printer" "doc.pdf" Option.none
          initState).2
        rfl))
    (1000, newFileJob "job-uuid" 0 "Simulated Printer" "doc.pdf" Option.none 1000)
    (List.Mem.head _)
